import Mathlib

/-!
Verification of the radar-labeler annotation editor (`src/RadarLabeler.jsx`).

The JavaScript source is shallowly embedded over `ℚ`: JavaScript numbers are
modelled as exact rationals, so every algebraic law proved here is the law the
source computes in exact arithmetic.  The only transcendental step in the
source, `Math.cos`/`Math.sin` of the frame rotation angle, is modelled by
carrying the cosine and sine as explicit rational fields (`rotCos`, `rotSin`)
constrained where needed by the Pythagorean identity `rotCos² + rotSin² = 1`,
which the real cosine and sine of any angle satisfy.
-/

namespace RadarLabeler

/-! ### Constants (source lines 7-15) -/

def KEY_PAN_STEP : ℚ := 40
def DEFAULT_BBOX_SIZE : ℚ := 80
def MIN_BBOX_SIDE : ℚ := 5
def CLICK_DRAG_THRESHOLD : ℚ := 5
def ZOOM_MIN : ℚ := 1/5
def ZOOM_MAX : ℚ := 32
def ROTATION_MIN : ℚ := -10
def ROTATION_MAX : ℚ := 10
def SAVE_DEBOUNCE_MS : ℚ := 400

/-! ### Coordinate transforms (source class `CoordinateTransformer`, lines 81-160) -/

/-- A point in screen or image coordinates. -/
structure Pt where
  x : ℚ
  y : ℚ
deriving DecidableEq

/-- The constructor parameters of the source `CoordinateTransformer`.
`rotationDeg` is the stored angle (used by the source only for the
`rotationDeg !== 0` guard); `rotCos` and `rotSin` stand for the exact values of
`Math.cos(rotationDeg·π/180)` and `Math.sin(rotationDeg·π/180)`. -/
structure CoordinateTransformer where
  imgW : ℚ
  imgH : ℚ
  zoom : ℚ
  panX : ℚ
  panY : ℚ
  rotationDeg : ℚ
  rotCos : ℚ
  rotSin : ℚ
  rotated : Bool
deriving DecidableEq

/-- Source `screenToImage` (lines 92-125): undo pan, undo zoom, translate to
the image center, undo rotation when active, translate back.  The source
rotates by `rad = -rotationDeg·π/180`, whose cosine is `rotCos` and whose sine
is `-rotSin`, giving `nx = x·cos rad - y·sin rad = x·rotCos + y·rotSin` and
`ny = x·sin rad + y·cos rad = -(x·rotSin) + y·rotCos`. -/
def screenToImage (t : CoordinateTransformer) (sx sy : ℚ) : Pt :=
  let cx := t.imgW / 2
  let cy := t.imgH / 2
  let x0 := (sx - t.panX) / t.zoom - cx
  let y0 := (sy - t.panY) / t.zoom - cy
  let x1 := if t.rotated ∧ t.rotationDeg ≠ 0 then x0 * t.rotCos + y0 * t.rotSin else x0
  let y1 := if t.rotated ∧ t.rotationDeg ≠ 0 then -(x0 * t.rotSin) + y0 * t.rotCos else y0
  ⟨x1 + cx, y1 + cy⟩

/-- Source `imageToScreen` (lines 127-159): translate to the image center,
rotate when active (by `rad = rotationDeg·π/180`), translate back, scale by
zoom, translate by pan. -/
def imageToScreen (t : CoordinateTransformer) (ix iy : ℚ) : Pt :=
  let cx := t.imgW / 2
  let cy := t.imgH / 2
  let x0 := ix - cx
  let y0 := iy - cy
  let x1 := if t.rotated ∧ t.rotationDeg ≠ 0 then x0 * t.rotCos - y0 * t.rotSin else x0
  let y1 := if t.rotated ∧ t.rotationDeg ≠ 0 then x0 * t.rotSin + y0 * t.rotCos else y0
  ⟨(x1 + cx) * t.zoom + t.panX, (y1 + cy) * t.zoom + t.panY⟩

/-- Exact round trip: in exact arithmetic the inverse chain of `screenToImage`
undoes `imageToScreen`, provided zoom is nonzero and the carried cosine/sine
pair satisfies the Pythagorean identity. -/
theorem screenToImage_imageToScreen (t : CoordinateTransformer) (ix iy : ℚ)
    (hz : t.zoom ≠ 0) (hcs : t.rotCos ^ 2 + t.rotSin ^ 2 = 1) :
    screenToImage t (imageToScreen t ix iy).x (imageToScreen t ix iy).y = ⟨ix, iy⟩ := by
  simp only [screenToImage, imageToScreen]
  split_ifs with h
  · rw [Pt.mk.injEq]
    simp only [add_sub_cancel_right, mul_div_cancel_right₀ _ hz]
    constructor
    · linear_combination (ix - t.imgW / 2) * hcs
    · linear_combination (iy - t.imgH / 2) * hcs
  · rw [Pt.mk.injEq]
    simp only [add_sub_cancel_right, mul_div_cancel_right₀ _ hz]
    constructor
    · ring
    · ring

/-! ### Data model (source lines 51-75 and the project-file shape) -/

/-- The two annotation kinds of the source (`'point'`, `'bbox'`). -/
inductive AnnType where
  | point
  | bbox
deriving DecidableEq

/-- One annotation record.  The source stores `w`/`h` only on the bbox
variant; `createAnnotation` defaults them to `0`, which this embedding keeps
for the point variant. -/
structure Ann where
  id : String
  type : AnnType
  label : String
  x : ℚ
  y : ℚ
  w : ℚ
  h : ℚ
deriving DecidableEq

/-- Source `createAnnotation` (lines 62-75) with the generated random id made
an explicit argument. -/
def createAnn (newId : String) (type : AnnType) (label : String)
    (x y : ℚ) (w h : ℚ) : Ann :=
  ⟨newId, type, label, x, y, if type = .bbox then w else 0,
    if type = .bbox then h else 0⟩

/-- One frame of the project (`frames[i]`): name, dimensions, rotation and the
frame-local annotation list.  `rotCos`/`rotSin` carry the exact cosine and
sine of `rotationDeg` for the transformer. -/
structure Frame where
  name : String
  width : ℚ
  height : ℚ
  rotationDeg : ℚ
  rotCos : ℚ
  rotSin : ℚ
  anns : List Ann
deriving DecidableEq

structure Viewport where
  zoom : ℚ
  panX : ℚ
  panY : ℚ
deriving DecidableEq

/-- The root project aggregate (source `createDefaultProject`, lines 51-60). -/
structure Project where
  version : ℚ
  createdAt : String
  viewport : Viewport
  currentIndex : ℕ
  frames : List Frame
  globalBuoys : List Ann
deriving DecidableEq

/-- Source `createDefaultProject` with the wall-clock timestamp made opaque. -/
def defaultProject : Project :=
  ⟨1, "", ⟨1, 0, 0⟩, 0, [], []⟩

/-- `project.frames[project.currentIndex]` (source line 298); `none` models
JavaScript `undefined` when the index is out of range. -/
def currentFrameOf (p : Project) : Option Frame :=
  p.frames[p.currentIndex]?

/-- Builds the transformer the handlers construct: frame dimensions plus the
viewport, with rotation fields zeroed exactly when the non-rotated (global)
space is requested, as every call site does
(`isGlobal ? 0 : currentFrame.rotationDeg`, `rotated` flag accordingly). -/
def mkTransformer (f : Frame) (v : Viewport) (rotated : Bool) : CoordinateTransformer :=
  ⟨f.width, f.height, v.zoom, v.panX, v.panY,
    if rotated then f.rotationDeg else 0,
    if rotated then f.rotCos else 1,
    if rotated then f.rotSin else 0,
    rotated⟩

/-! ### Hit testing (source `getAnnotationAtPoint`, lines 680-742) -/

inductive Space where
  | frame
  | global
deriving DecidableEq

structure HitR where
  space : Space
  id : String
  index : ℕ
deriving DecidableEq

/-- The per-annotation test of the source loop: points hit when
`Math.hypot(ann.x - imgX, ann.y - imgY) < 10`, embedded by the equivalent
squared comparison; boxes hit by inclusive-min/exclusive-max containment. -/
def hitsB (p : Pt) (a : Ann) : Bool :=
  match a.type with
  | .point => decide ((a.x - p.x) ^ 2 + (a.y - p.y) ^ 2 < 100)
  | .bbox => decide (a.x ≤ p.x ∧ p.x < a.x + a.w ∧ a.y ≤ p.y ∧ p.y < a.y + a.h)

/-- The source's downward loop `for (let i = len - 1; i >= 0; i--)` returning
the first (= highest-index) hit: the recursion consults the tail (the
higher-indexed elements) before the head. -/
def findHitFromEnd (anns : List Ann) (p : Pt) : Option (ℕ × Ann) :=
  match anns with
  | [] => none
  | a :: rest =>
    match findHitFromEnd rest p with
    | some (i, b) => some (i + 1, b)
    | none => if hitsB p a then some (0, a) else none

/-- Source `getAnnotationAtPoint`: with no current frame return null; else map
the screen point through the frame-rotated transformer and scan the frame list
last-to-first; on miss, map through the non-rotated transformer and scan the
global list last-to-first. -/
def getAnnAtPoint (proj : Project) (sp : Pt) : Option HitR :=
  match currentFrameOf proj with
  | none => none
  | some f =>
    let ip := screenToImage (mkTransformer f proj.viewport true) sp.x sp.y
    match findHitFromEnd f.anns ip with
    | some (i, a) => some ⟨.frame, a.id, i⟩
    | none =>
      let bp := screenToImage (mkTransformer f proj.viewport false) sp.x sp.y
      match findHitFromEnd proj.globalBuoys bp with
      | some (i, a) => some ⟨.global, a.id, i⟩
      | none => none

/-- Hit testing as the spec words it: search the reversed (last-inserted
first) frame list with the rotated transform; only on a miss search the
reversed global list with the non-rotated transform; return the identifier of
the first hit, or none. -/
def specHitTest (proj : Project) (sp : Pt) : Option (Space × String) :=
  match currentFrameOf proj with
  | none => none
  | some f =>
    let ip := screenToImage (mkTransformer f proj.viewport true) sp.x sp.y
    match f.anns.reverse.find? (fun a => hitsB ip a) with
    | some a => some (.frame, a.id)
    | none =>
      let bp := screenToImage (mkTransformer f proj.viewport false) sp.x sp.y
      match proj.globalBuoys.reverse.find? (fun a => hitsB bp a) with
      | some a => some (.global, a.id)
      | none => none

theorem find?_append {α : Type} (l₁ l₂ : List α) (f : α → Bool) :
    (l₁ ++ l₂).find? f =
      match l₁.find? f with
      | some a => some a
      | none => l₂.find? f := by
  induction l₁ with
  | nil => rfl
  | cons a rest ih =>
    by_cases h : f a
    · simp [List.find?_cons, h]
    · simp only [List.cons_append, List.find?_cons, h]
      simpa [h] using ih

/-- The downward loop returns exactly the first hit of the reversed list. -/
theorem findHitFromEnd_eq_reverse_find (anns : List Ann) (p : Pt) :
    (findHitFromEnd anns p).map Prod.snd = anns.reverse.find? (fun a => hitsB p a) := by
  induction anns with
  | nil => rfl
  | cons a rest ih =>
    simp only [findHitFromEnd, List.reverse_cons, find?_append]
    rw [← ih]
    cases h : findHitFromEnd rest p with
    | some ib => simp
    | none =>
      by_cases hh : hitsB p a <;> simp [hh, List.find?]

/-- C3: for every display-space point, hit testing maps the point through the
frame-rotated transform and scans the current frame's annotations
last-inserted-to-first (point: image-space Euclidean distance < 10; bbox:
inclusive-min/exclusive-max containment), and only on a miss repeats with the
non-rotated transform over the global list in the same order with the same
thresholds, returning the first hit's space and identifier or none — so of two
overlapping annotations the later-inserted one wins. -/
theorem C3_hit_test_order (proj : Project) (sp : Pt) :
    (getAnnAtPoint proj sp).map (fun h => (h.space, h.id)) = specHitTest proj sp := by
  unfold getAnnAtPoint specHitTest
  cases currentFrameOf proj with
  | none => rfl
  | some f =>
    simp only
    rw [← findHitFromEnd_eq_reverse_find, ← findHitFromEnd_eq_reverse_find]
    cases findHitFromEnd f.anns
        (screenToImage (mkTransformer f proj.viewport true) sp.x sp.y) with
    | some ia => simp
    | none =>
      simp only [Option.map_none]
      cases findHitFromEnd proj.globalBuoys
          (screenToImage (mkTransformer f proj.viewport false) sp.x sp.y) with
      | some ia => simp
      | none => simp

/-! ### Annotation store mutations (source lines 536-677) -/

/-- `newFrames[frameIndex] = { ...newFrames[frameIndex], annotations }`
(source `updateFrameAnnotations`, lines 536-545). -/
def setFrameAnns (proj : Project) (i : ℕ) (anns : List Ann) : Project :=
  { proj with
    frames := proj.frames.enum.map
      (fun jf => if jf.1 = i then { jf.2 with anns := anns } else jf.2) }

/-- The list computation inside source `moveAnnotation` (lines 619-638):
find the annotation by id (`findIndex`); on a miss return the list unchanged;
otherwise shift its position by the delta. -/
def moveAnnList (anns : List Ann) (id : String) (dx dy : ℚ) : List Ann :=
  match anns.findIdx? (fun a => a.id == id) with
  | none => anns
  | some idx =>
    match anns[idx]? with
    | none => anns
    | some a => anns.set idx { a with x := a.x + dx, y := a.y + dy }

/-- The list computation inside source `resizeAnnotation` (lines 640-659):
find by id; miss or non-bbox type returns the list unchanged; otherwise clamp
each new side to the 5-unit minimum via `Math.max(MIN_BBOX_SIDE, side + d)`. -/
def resizeAnnList (anns : List Ann) (id : String) (dw dh : ℚ) : List Ann :=
  match anns.findIdx? (fun a => a.id == id) with
  | none => anns
  | some idx =>
    match anns[idx]? with
    | none => anns
    | some a =>
      if a.type = .bbox then
        anns.set idx
          { a with w := max MIN_BBOX_SIDE (a.w + dw), h := max MIN_BBOX_SIDE (a.h + dh) }
      else anns

/-- Source `moveAnnotation` as a whole-project update: picks the global list
or the current frame's list and commits a whole-collection replacement. -/
def moveAnnProj (proj : Project) (id : String) (dx dy : ℚ) (isGlobal : Bool) : Project :=
  if isGlobal then
    { proj with globalBuoys := moveAnnList proj.globalBuoys id dx dy }
  else
    match currentFrameOf proj with
    | none => { proj with frames := proj.frames }
    | some f => setFrameAnns proj proj.currentIndex (moveAnnList f.anns id dx dy)

/-- Source `resizeAnnotation` as a whole-project update. -/
def resizeAnnProj (proj : Project) (id : String) (dw dh : ℚ) (isGlobal : Bool) : Project :=
  if isGlobal then
    { proj with globalBuoys := resizeAnnList proj.globalBuoys id dw dh }
  else
    match currentFrameOf proj with
    | none => { proj with frames := proj.frames }
    | some f => setFrameAnns proj proj.currentIndex (resizeAnnList f.anns id dw dh)

/-! ### Select-tool resize drag (source `handleCanvasMouseMove`, lines 992-1030) -/

/-- One select-tool pointer-move with a recorded resize handle.  Source
behaviour: build the transformer for the hit's space, map the pointer to image
space, read the dragged annotation from the captured `project`, then

* `'se'` — `resizeAnnotation(id, imgX - (x + w), imgY - (y + h))`;
* `'nw'` — `moveAnnotation(id, dx, dy)` **then** `resizeAnnotation(id, -dx, -dy)`.
  Both calls compute their whole-collection replacement from the same captured
  `project` (the component state of this render), so the second replacement is
  built from the pre-move list and overwrites the first: only the resize
  reaches the committed state, and the origin never moves;
* any other handle name — no branch, state unchanged. -/
def handleSelectDragResize (proj : Project) (handle : String) (hitIsGlobal : Bool)
    (hitIndex : ℕ) (screen : Pt) : Project :=
  match currentFrameOf proj with
  | none => proj
  | some f =>
    let trans := mkTransformer f proj.viewport (!hitIsGlobal)
    let ip := screenToImage trans screen.x screen.y
    match (if hitIsGlobal then proj.globalBuoys[hitIndex]? else f.anns[hitIndex]?) with
    | none => proj
    | some ann =>
      if handle = "se" then
        resizeAnnProj proj ann.id (ip.x - (ann.x + ann.w)) (ip.y - (ann.y + ann.h)) hitIsGlobal
      else if handle = "nw" then
        resizeAnnProj proj ann.id (-(ip.x - ann.x)) (-(ip.y - ann.y)) hitIsGlobal
      else proj

/-! ### Box-tool mouse-up (source `handleCanvasMouseUp`, lines 1055-1127) -/

/-- The geometric fields of the bbox created by a completed box-tool gesture. -/
structure BoxR where
  x : ℚ
  y : ℚ
  w : ℚ
  h : ℚ
deriving DecidableEq

/-- Squared screen displacement of a gesture; the source compares
`Math.hypot(dx, dy) < 5`, equivalent to `dx² + dy² < 25`. -/
def sqDist (p q : Pt) : ℚ :=
  (q.x - p.x) ^ 2 + (q.y - p.y) ^ 2

/-- Source box-tool branch of `handleCanvasMouseUp` (lines 1095-1121): below
the 5-px click/drag threshold, a default 80×80 box anchored at the image-space
mapping of the start point; otherwise both endpoints are mapped and the box is
the min-corner / absolute-difference rectangle with each side clamped to the
5-unit minimum.  Buoy tools (`isGlobal`) use the non-rotated transformer. -/
def handleBoxMouseUp (f : Frame) (v : Viewport) (isGlobal : Bool)
    (start cur : Pt) : BoxR :=
  let trans := mkTransformer f v (!isGlobal)
  let p1 := screenToImage trans start.x start.y
  if sqDist start cur < CLICK_DRAG_THRESHOLD ^ 2 then
    ⟨p1.x, p1.y, DEFAULT_BBOX_SIZE, DEFAULT_BBOX_SIZE⟩
  else
    let p2 := screenToImage trans cur.x cur.y
    ⟨min p1.x p2.x, min p1.y p2.y,
      max MIN_BBOX_SIDE |p2.x - p1.x|, max MIN_BBOX_SIDE |p2.y - p1.y|⟩

/-! ### Wheel zoom (source `handleWheel`, lines 1282-1320) -/

/-- `Math.max(ZOOM_MIN, Math.min(ZOOM_MAX, z))`. -/
def clampZoom (z : ℚ) : ℚ :=
  max ZOOM_MIN (min ZOOM_MAX z)

/-- Source wheel handler: factor 0.9 when `deltaY > 0` (zoom out), else 1.1;
clamp; read the screen position of the image center under the old viewport;
read its position under the new zoom with zero pan; new pan is the old pan
plus the difference. -/
def handleWheel (f : Frame) (v : Viewport) (zoomOut : Bool) : Viewport :=
  let factor : ℚ := if zoomOut then 9/10 else 11/10
  let newZoom := clampZoom (v.zoom * factor)
  let c := imageToScreen (mkTransformer f v true) (f.width / 2) (f.height / 2)
  let n := imageToScreen (mkTransformer f ⟨newZoom, 0, 0⟩ true) (f.width / 2) (f.height / 2)
  ⟨newZoom, v.panX + (c.x - n.x), v.panY + (c.y - n.y)⟩

/-! ### Viewport / navigation operations and the project invariant (C7) -/

/-- The project-state operations named by the spec invariant: frame
navigation, the three zoom paths, viewport reset, and project load. -/
inductive Op where
  | goToFrame (i : ℤ)
  | wheelZoom (zoomOut : Bool)
  | keyZoomIn
  | keyZoomOut
  | sliderZoom (z : ℚ)
  | resetView
  | loadProject (q : Project)

/-- Apply one operation, mirroring the source handlers:

* `goToFrame` (lines 595-603) updates `currentIndex` only when
  `0 ≤ i < frames.length`;
* the wheel handler and the keyboard handler return early when there is no
  current frame; keyboard `+`/`-` apply `min(32, z·1.2)` / `max(0.2, z/1.2)`;
* the zoom slider writes `exp(v)` of a DOM-clamped value
  `v ∈ [ln 0.2, ln 32]`, modelled as directly supplying the resulting zoom;
* reset writes `zoom = 1, pan = (0,0)`;
* project load (lines 450-480) accepts whenever `version` is truthy and
  `frames` is an array — in this typed embedding `frames` is always a list,
  so acceptance is `version ≠ 0`; nothing else is validated. -/
def applyOp (p : Project) (op : Op) : Project :=
  match op with
  | .goToFrame i =>
    if 0 ≤ i ∧ i < p.frames.length then { p with currentIndex := i.toNat } else p
  | .wheelZoom zoomOut =>
    match currentFrameOf p with
    | none => p
    | some f => { p with viewport := handleWheel f p.viewport zoomOut }
  | .keyZoomIn =>
    match currentFrameOf p with
    | none => p
    | some _ =>
      { p with viewport :=
          ⟨min ZOOM_MAX (p.viewport.zoom * (12/10)), p.viewport.panX, p.viewport.panY⟩ }
  | .keyZoomOut =>
    match currentFrameOf p with
    | none => p
    | some _ =>
      { p with viewport :=
          ⟨max ZOOM_MIN (p.viewport.zoom / (12/10)), p.viewport.panX, p.viewport.panY⟩ }
  | .sliderZoom z =>
    { p with viewport := ⟨z, p.viewport.panX, p.viewport.panY⟩ }
  | .resetView => { p with viewport := ⟨1, 0, 0⟩ }
  | .loadProject q => if q.version ≠ 0 then q else p

def applyOps (p : Project) (ops : List Op) : Project :=
  ops.foldl applyOp p

/-- The spec invariant: a valid current index whenever frames exist, and zoom
within `[0.2, 32]`. -/
def Inv (p : Project) : Prop :=
  (p.frames ≠ [] → p.currentIndex < p.frames.length) ∧
    ZOOM_MIN ≤ p.viewport.zoom ∧ p.viewport.zoom ≤ ZOOM_MAX

instance (p : Project) : Decidable (Inv p) := by
  unfold Inv
  infer_instance

/-- Side conditions the environment guarantees per operation: the log-scale
zoom slider is DOM-clamped into `[ln 0.2, ln 32]`, so the zoom it writes lies
in `[0.2, 32]`; a loaded project file preserves the invariant only when the
file itself satisfies it. -/
def OpOK : Op → Prop
  | .sliderZoom z => ZOOM_MIN ≤ z ∧ z ≤ ZOOM_MAX
  | .loadProject q => Inv q
  | _ => True

instance : DecidablePred OpOK := by
  intro op
  cases op <;> (unfold OpOK; infer_instance)

/-! ### Project-file loading (C8) -/

/-- Parsed JSON values; a missing object field reads as `null` (JavaScript
`undefined` — like `null` it is falsy and not an array, which is all the
validation inspects). -/
inductive JValue where
  | null
  | bool (b : Bool)
  | num (q : ℚ)
  | str (s : String)
  | arr (elems : List JValue)
  | obj (fields : List (String × JValue))

/-- Property access `j.k`. -/
def JValue.getF : JValue → String → JValue
  | .obj fields, k =>
    match fields.find? (fun kv => kv.1 == k) with
    | some kv => kv.2
    | none => .null
  | _, _ => .null

/-- JavaScript truthiness of a JSON value (`NaN` does not arise from
`JSON.parse`). -/
def JValue.truthy : JValue → Bool
  | .null => false
  | .bool b => b
  | .num q => decide (q ≠ 0)
  | .str s => decide (s ≠ "")
  | .arr _ => true
  | .obj _ => true

def JValue.isArr : JValue → Bool
  | .arr _ => true
  | _ => false

def JValue.isNull : JValue → Bool
  | .null => true
  | _ => false

/-- The source validation (lines 461, 492):
`loadedProject.version && loadedProject.frames && Array.isArray(loadedProject.frames)`. -/
def validProjectJ (j : JValue) : Bool :=
  (j.getF "version").truthy && (j.getF "frames").truthy && (j.getF "frames").isArr

/-- Source `handleLoadProject` / `handleProjectFileInput` as a state update on
the stored project: `none` models a `JSON.parse` failure (the `catch` block
runs, touching nothing); a parsed value replaces the project exactly when the
validation passes, else the current project is retained.  The `Bool` reports
acceptance. -/
def handleLoadProjectJ (current : JValue) (input : Option JValue) : JValue × Bool :=
  match input with
  | none => (current, false)
  | some j => if validProjectJ j then (j, true) else (current, false)

/-- The claim's acceptance condition, from its own words: a non-null
`version` field and a `frames` field that is present and is a list. -/
def claimAccepts (j : JValue) : Bool :=
  !(j.getF "version").isNull && (j.getF "frames").isArr

/-- The amended acceptance condition: `version` must be *truthy* — not
merely non-null — spelled out by cases. -/
def amendedAccepts (j : JValue) : Bool :=
  (match j.getF "version" with
    | .null => false
    | .bool b => b
    | .num q => decide (q ≠ 0)
    | .str s => decide (s ≠ "")
    | .arr _ => true
    | .obj _ => true) && (j.getF "frames").isArr

/-! ### Debounced persistence (source `triggerSave`, lines 507-524, C9) -/

/-- The debounce machine.  `pending` is `saveTimeoutRef` (at most one pending
timer, an `Option`); each mutation at time `t` first lets a pending timer
whose deadline already passed fire, then cancels any still-pending timer
(`clearTimeout`) and schedules a new one at `t + 400` (`setTimeout`).  The
returned list collects the times at which a save fired; a final pending timer
fires once events stop. -/
def runSaves : Option ℚ → List ℚ → List ℚ
  | none, [] => []
  | some ft, [] => [ft]
  | none, t :: rest => runSaves (some (t + SAVE_DEBOUNCE_MS)) rest
  | some ft, t :: rest =>
    if ft < t then ft :: runSaves (some (t + SAVE_DEBOUNCE_MS)) rest
    else runSaves (some (t + SAVE_DEBOUNCE_MS)) rest

/-- Save instants produced by a sequence of project mutations at the given
times. -/
def savesOf (ts : List ℚ) : List ℚ :=
  runSaves none ts

/-! ### Image / folder import (source lines 301-434, C10) -/

/-- What the image loader yields for one decoded image. -/
structure FrameData where
  name : String
  width : ℚ
  height : ℚ
deriving DecidableEq

/-- `{ ...frameData, rotationDeg: 0, annotations: [] }`. -/
def mkImportedFrame (fd : FrameData) : Frame :=
  ⟨fd.name, fd.width, fd.height, 0, 1, 0, []⟩

/-- Source `handleOpenFile` / `handleFileInputChange`: spread the existing
project, replacing `frames` with the single new frame and resetting
`currentIndex` to 0. -/
def importSingleImage (proj : Project) (fd : FrameData) : Project :=
  { proj with frames := [mkImportedFrame fd], currentIndex := 0 }

/-- Source `handleFolderInputChange` / `handleOpenFolder`: with zero usable
images the handler reports and returns, leaving the project unchanged;
otherwise spread the existing project, replacing `frames` and resetting
`currentIndex` to 0. -/
def importFolder (proj : Project) (images : List FrameData) : Project :=
  if images = [] then proj
  else { proj with frames := images.map mkImportedFrame, currentIndex := 0 }

/-! ### Shared concrete fixtures and helper lemmas -/

/-- A 100×100 frame with zero rotation and no annotations. -/
def frame100 : Frame :=
  ⟨"frame0", 100, 100, 0, 1, 0, []⟩

/-- The screen position of the image's geometric center: rotation about the
center fixes it, so only zoom and pan act. -/
theorem center_screen (f : Frame) (v : Viewport) (r : Bool) :
    imageToScreen (mkTransformer f v r) (f.width / 2) (f.height / 2) =
      ⟨f.width / 2 * v.zoom + v.panX, f.height / 2 * v.zoom + v.panY⟩ := by
  simp only [imageToScreen, mkTransformer]
  split_ifs <;> (rw [Pt.mk.injEq]; constructor <;> ring)

/-- Closed form of the wheel handler. -/
theorem handleWheel_eq (f : Frame) (v : Viewport) (zoomOut : Bool) :
    handleWheel f v zoomOut =
      ⟨clampZoom (v.zoom * (if zoomOut then 9/10 else 11/10)),
        2 * v.panX + f.width / 2 * v.zoom
          - f.width / 2 * clampZoom (v.zoom * (if zoomOut then 9/10 else 11/10)),
        2 * v.panY + f.height / 2 * v.zoom
          - f.height / 2 * clampZoom (v.zoom * (if zoomOut then 9/10 else 11/10))⟩ := by
  simp only [handleWheel, center_screen]
  rw [Viewport.mk.injEq]
  refine ⟨rfl, by ring, by ring⟩

/-- Click branch of the box-tool mouse-up. -/
theorem handleBoxMouseUp_click (f : Frame) (v : Viewport) (g : Bool) (s c : Pt)
    (h : sqDist s c < 25) :
    handleBoxMouseUp f v g s c =
      ⟨(screenToImage (mkTransformer f v (!g)) s.x s.y).x,
        (screenToImage (mkTransformer f v (!g)) s.x s.y).y,
        DEFAULT_BBOX_SIZE, DEFAULT_BBOX_SIZE⟩ := by
  have h' : sqDist s c < CLICK_DRAG_THRESHOLD ^ 2 := by
    have e : CLICK_DRAG_THRESHOLD ^ 2 = 25 := by norm_num [CLICK_DRAG_THRESHOLD]
    rw [e]; exact h
  simp only [handleBoxMouseUp]
  rw [if_pos h']

/-- Drag branch of the box-tool mouse-up. -/
theorem handleBoxMouseUp_drag (f : Frame) (v : Viewport) (g : Bool) (s c : Pt)
    (h : 25 ≤ sqDist s c) :
    handleBoxMouseUp f v g s c =
      ⟨min (screenToImage (mkTransformer f v (!g)) s.x s.y).x
          (screenToImage (mkTransformer f v (!g)) c.x c.y).x,
        min (screenToImage (mkTransformer f v (!g)) s.x s.y).y
          (screenToImage (mkTransformer f v (!g)) c.x c.y).y,
        max MIN_BBOX_SIDE
          |(screenToImage (mkTransformer f v (!g)) c.x c.y).x
            - (screenToImage (mkTransformer f v (!g)) s.x s.y).x|,
        max MIN_BBOX_SIDE
          |(screenToImage (mkTransformer f v (!g)) c.x c.y).y
            - (screenToImage (mkTransformer f v (!g)) s.x s.y).y|⟩ := by
  have h' : ¬ sqDist s c < CLICK_DRAG_THRESHOLD ^ 2 := by
    have e : CLICK_DRAG_THRESHOLD ^ 2 = 25 := by norm_num [CLICK_DRAG_THRESHOLD]
    rw [e]; exact not_lt.mpr h
  simp only [handleBoxMouseUp]
  rw [if_neg h']

/-! ### C1 — coordinate round trip -/

/-- C1: for every image size, every zoom in [0.2, 32], every pan, every
rotation in [-10, 10] degrees and either value of the rotation-enabled flag,
`screenToImage ∘ imageToScreen` reproduces the input point within 1e-6 (in
this exact-arithmetic embedding the round trip is exact, given the
Pythagorean identity for the carried cosine/sine of the rotation angle). -/
theorem C1_round_trip (t : CoordinateTransformer) (ix iy : ℚ)
    (hz1 : ZOOM_MIN ≤ t.zoom) (hz2 : t.zoom ≤ ZOOM_MAX)
    (hr1 : ROTATION_MIN ≤ t.rotationDeg) (hr2 : t.rotationDeg ≤ ROTATION_MAX)
    (hcs : t.rotCos ^ 2 + t.rotSin ^ 2 = 1) :
    |(screenToImage t (imageToScreen t ix iy).x (imageToScreen t ix iy).y).x - ix|
        ≤ 1 / 1000000 ∧
    |(screenToImage t (imageToScreen t ix iy).x (imageToScreen t ix iy).y).y - iy|
        ≤ 1 / 1000000 := by
  have hz : t.zoom ≠ 0 := by
    have h0 : (0 : ℚ) < ZOOM_MIN := by norm_num [ZOOM_MIN]
    exact ne_of_gt (lt_of_lt_of_le h0 hz1)
  rw [screenToImage_imageToScreen t ix iy hz hcs]
  norm_num

theorem C1_round_trip_witness :
    ZOOM_MIN ≤ (2 : ℚ) ∧ (2 : ℚ) ≤ ZOOM_MAX ∧
    ROTATION_MIN ≤ (5 : ℚ) ∧ (5 : ℚ) ≤ ROTATION_MAX ∧
    ((3/5 : ℚ) ^ 2 + (4/5 : ℚ) ^ 2 = 1) ∧
    (|(screenToImage ⟨100, 80, 2, 3, 4, 5, 3/5, 4/5, true⟩
        (imageToScreen ⟨100, 80, 2, 3, 4, 5, 3/5, 4/5, true⟩ 7 11).x
        (imageToScreen ⟨100, 80, 2, 3, 4, 5, 3/5, 4/5, true⟩ 7 11).y).x - 7| ≤ 1 / 1000000 ∧
      |(screenToImage ⟨100, 80, 2, 3, 4, 5, 3/5, 4/5, true⟩
        (imageToScreen ⟨100, 80, 2, 3, 4, 5, 3/5, 4/5, true⟩ 7 11).x
        (imageToScreen ⟨100, 80, 2, 3, 4, 5, 3/5, 4/5, true⟩ 7 11).y).y - 11| ≤ 1 / 1000000) :=
  ⟨by norm_num [ZOOM_MIN], by norm_num [ZOOM_MAX], by norm_num [ROTATION_MIN],
    by norm_num [ROTATION_MAX], by norm_num,
    C1_round_trip ⟨100, 80, 2, 3, 4, 5, 3/5, 4/5, true⟩ 7 11
      (by norm_num [ZOOM_MIN]) (by norm_num [ZOOM_MAX])
      (by norm_num [ROTATION_MIN]) (by norm_num [ROTATION_MAX]) (by norm_num)⟩

/-! ### C2 — wheel zoom -/

/-- C2 counterexample: on a zoom-out wheel event from zoom 1 the new zoom is
0.9, not `clamp(1 × 1/1.1)`; and with starting pan (50, 0) the screen x of the
image's center moves by 50 px, not by less than 1 px. -/
theorem C2_counterexample :
    (handleWheel frame100 ⟨1, 50, 0⟩ true).zoom = 9/10 ∧
    (9/10 : ℚ) ≠ clampZoom (1 * (1 / (11/10))) ∧
    (imageToScreen (mkTransformer frame100 (handleWheel frame100 ⟨1, 50, 0⟩ true) true)
        50 50).x -
      (imageToScreen (mkTransformer frame100 ⟨1, 50, 0⟩ true) 50 50).x = 50 := by
  refine ⟨?_, ?_, ?_⟩
  · rw [handleWheel_eq]
    norm_num [clampZoom, ZOOM_MIN, ZOOM_MAX]
  · norm_num [clampZoom, ZOOM_MIN, ZOOM_MAX]
  · rw [handleWheel_eq]
    norm_num [imageToScreen, mkTransformer, frame100, clampZoom, ZOOM_MIN, ZOOM_MAX]

/-- C2 (amended): the wheel handler multiplies the zoom by 1.1 (zoom-in) or
0.9 (zoom-out) and clamps to [0.2, 32]; the new pan is the old pan plus the
difference between the image center's old screen position and its position
under the new zoom with zero pan.  Because the old screen position already
contains the pan, this shifts the center's screen position by exactly the old
pan vector — the center is preserved only when the old pan is (0,0). -/
theorem C2_wheel_zoom (f : Frame) (v : Viewport) (zoomOut : Bool) :
    (handleWheel f v zoomOut).zoom
        = clampZoom (v.zoom * (if zoomOut then 9/10 else 11/10)) ∧
    imageToScreen (mkTransformer f (handleWheel f v zoomOut) true)
        (f.width / 2) (f.height / 2)
      = ⟨(imageToScreen (mkTransformer f v true) (f.width / 2) (f.height / 2)).x + v.panX,
         (imageToScreen (mkTransformer f v true) (f.width / 2) (f.height / 2)).y + v.panY⟩ := by
  rw [handleWheel_eq, center_screen, center_screen]
  dsimp only
  refine ⟨rfl, ?_⟩
  rw [Pt.mk.injEq]
  constructor <;> ring

/-! ### C4 — box-tool click/drag threshold -/

/-- C4: a completed box-tool gesture whose squared screen displacement is
below 5² creates a default 80×80 box anchored at the image-space mapping of
the start point; otherwise both endpoints are mapped to image space and the
box has the componentwise min as origin and the absolute differences, each
clamped to the 5-unit minimum, as sides. -/
theorem C4_box_gesture (f : Frame) (v : Viewport) (isGlobal : Bool) (start cur : Pt) :
    (sqDist start cur < 25 →
      handleBoxMouseUp f v isGlobal start cur =
        ⟨(screenToImage (mkTransformer f v (!isGlobal)) start.x start.y).x,
          (screenToImage (mkTransformer f v (!isGlobal)) start.x start.y).y,
          80, 80⟩) ∧
    (25 ≤ sqDist start cur →
      handleBoxMouseUp f v isGlobal start cur =
        ⟨min (screenToImage (mkTransformer f v (!isGlobal)) start.x start.y).x
            (screenToImage (mkTransformer f v (!isGlobal)) cur.x cur.y).x,
          min (screenToImage (mkTransformer f v (!isGlobal)) start.x start.y).y
            (screenToImage (mkTransformer f v (!isGlobal)) cur.x cur.y).y,
          max 5 |(screenToImage (mkTransformer f v (!isGlobal)) cur.x cur.y).x
              - (screenToImage (mkTransformer f v (!isGlobal)) start.x start.y).x|,
          max 5 |(screenToImage (mkTransformer f v (!isGlobal)) cur.x cur.y).y
              - (screenToImage (mkTransformer f v (!isGlobal)) start.x start.y).y|⟩) := by
  constructor
  · intro h
    rw [handleBoxMouseUp_click f v isGlobal start cur h]
    rfl
  · intro h
    rw [handleBoxMouseUp_drag f v isGlobal start cur h]
    rfl

theorem C4_box_gesture_witness :
    (sqDist ⟨0, 0⟩ ⟨4999/1000, 0⟩ < 25 ∧
      handleBoxMouseUp frame100 ⟨1, 0, 0⟩ false ⟨0, 0⟩ ⟨4999/1000, 0⟩ = ⟨0, 0, 80, 80⟩) ∧
    (25 ≤ sqDist ⟨0, 0⟩ ⟨5001/1000, 0⟩ ∧
      handleBoxMouseUp frame100 ⟨1, 0, 0⟩ false ⟨0, 0⟩ ⟨5001/1000, 0⟩
        = ⟨0, 0, 5001/1000, 5⟩) :=
  ⟨⟨by norm_num [sqDist],
      ((C4_box_gesture frame100 ⟨1, 0, 0⟩ false ⟨0, 0⟩ ⟨4999/1000, 0⟩).1
        (by norm_num [sqDist])).trans
        (by norm_num [screenToImage, mkTransformer, frame100])⟩,
    ⟨by norm_num [sqDist],
      ((C4_box_gesture frame100 ⟨1, 0, 0⟩ false ⟨0, 0⟩ ⟨5001/1000, 0⟩).2
        (by norm_num [sqDist])).trans
        (by
          norm_num [screenToImage, mkTransformer, frame100,
            inf_eq_min, sup_eq_max, min_def, max_def]
          rw [abs_of_nonneg (by norm_num : (0:ℚ) ≤ 5001/1000)]
          norm_num)⟩⟩

/-! ### C5 — minimum box size -/

/-- C5 counterexample: a box-tool gesture dragged over a 2×2 px extent has
screen displacement √8 < 5 px, so the code takes the click branch and creates
the default 80×80 box — not a box with both dimensions clamped to 5 as the
claim states. -/
theorem C5_counterexample :
    handleBoxMouseUp frame100 ⟨1, 0, 0⟩ false ⟨0, 0⟩ ⟨2, 2⟩ = ⟨0, 0, 80, 80⟩ ∧
    (⟨0, 0, 80, 80⟩ : BoxR).w ≠ 5 := by
  constructor
  · rw [handleBoxMouseUp_click frame100 ⟨1, 0, 0⟩ false ⟨0, 0⟩ ⟨2, 2⟩ (by norm_num [sqDist])]
    norm_num [screenToImage, mkTransformer, frame100, DEFAULT_BBOX_SIZE]
  · norm_num

/-- C5 (amended): resizing a BBox clamps each resulting side to the 5-unit
minimum and never errors (resizing to width 2 yields width 5); a box-creation
gesture whose screen displacement reaches the 5-px drag threshold clamps each
image-space dimension to the 5-unit minimum; a 2×2 px drag, being below the
click threshold, instead yields the default 80×80 box. -/
theorem C5_min_box_size :
    (∀ (anns : List Ann) (id : String) (dw dh : ℚ) (i : ℕ) (a : Ann),
      anns.findIdx? (fun b => b.id == id) = some i → anns[i]? = some a →
      a.type = .bbox →
      resizeAnnList anns id dw dh =
        anns.set i { a with w := max MIN_BBOX_SIDE (a.w + dw),
                            h := max MIN_BBOX_SIDE (a.h + dh) }) ∧
    (∀ (f : Frame) (v : Viewport) (g : Bool) (s c : Pt),
      25 ≤ sqDist s c →
      MIN_BBOX_SIDE ≤ (handleBoxMouseUp f v g s c).w ∧
      MIN_BBOX_SIDE ≤ (handleBoxMouseUp f v g s c).h) := by
  constructor
  · intro anns id dw dh i a hfind hget htype
    simp [resizeAnnList, hfind, hget, htype]
  · intro f v g s c h
    rw [handleBoxMouseUp_drag f v g s c h]
    exact ⟨le_max_left _ _, le_max_left _ _⟩

theorem C5_min_box_size_witness :
    (([⟨"b", .bbox, "boat", 0, 0, 10, 10⟩] : List Ann).findIdx?
        (fun b => b.id == "b") = some 0 ∧
      ([⟨"b", .bbox, "boat", 0, 0, 10, 10⟩] : List Ann)[0]?
        = some ⟨"b", .bbox, "boat", 0, 0, 10, 10⟩ ∧
      resizeAnnList [⟨"b", .bbox, "boat", 0, 0, 10, 10⟩] "b" (-8) 0 =
        [⟨"b", .bbox, "boat", 0, 0, 5, 10⟩]) ∧
    (25 ≤ sqDist ⟨0, 0⟩ ⟨6, 6⟩ ∧
      MIN_BBOX_SIDE ≤ (handleBoxMouseUp frame100 ⟨4, 0, 0⟩ false ⟨0, 0⟩ ⟨6, 6⟩).w ∧
      MIN_BBOX_SIDE ≤ (handleBoxMouseUp frame100 ⟨4, 0, 0⟩ false ⟨0, 0⟩ ⟨6, 6⟩).h) :=
  ⟨⟨by rfl, by rfl,
      ((C5_min_box_size.1 [⟨"b", .bbox, "boat", 0, 0, 10, 10⟩] "b" (-8) 0 0
          ⟨"b", .bbox, "boat", 0, 0, 10, 10⟩ (by rfl) (by rfl) (by rfl)).trans
        (by norm_num [MIN_BBOX_SIDE, sup_eq_max, max_def]))⟩,
    ⟨by norm_num [sqDist],
      C5_min_box_size.2 frame100 ⟨4, 0, 0⟩ false ⟨0, 0⟩ ⟨6, 6⟩
        (by norm_num [sqDist])⟩⟩

/-! ### C6 — resize-handle drag semantics -/

/-- A project holding one frame with one 20×20 bbox at (10, 10). -/
def projC6 : Project :=
  ⟨1, "", ⟨1, 0, 0⟩, 0, [⟨"f", 100, 100, 0, 1, 0, [⟨"b1", .bbox, "boat", 10, 10, 20, 20⟩]⟩], []⟩

/-- C6: evaluation of the select-tool resize drag on the concrete project at
the failing input.  An `se` drag to image point (35, 27) grows the box to
25×17 as the claim states, and every other-handle drag leaves the project
unchanged; but an `nw` drag to image point (12, 13) produces a box of origin
(10, 10) and size 18×17 — the origin does **not** move to (12, 13), because
the source's `moveAnnotation` update is computed from the same captured state
as the subsequent `resizeAnnotation` update and is overwritten by it. -/
theorem C6_handle_drag_eval :
    handleSelectDragResize projC6 "se" false 0 ⟨35, 27⟩ =
      ⟨1, "", ⟨1, 0, 0⟩, 0,
        [⟨"f", 100, 100, 0, 1, 0, [⟨"b1", .bbox, "boat", 10, 10, 25, 17⟩]⟩], []⟩ ∧
    handleSelectDragResize projC6 "n" false 0 ⟨12, 13⟩ = projC6 ∧
    handleSelectDragResize projC6 "ne" false 0 ⟨12, 13⟩ = projC6 ∧
    handleSelectDragResize projC6 "nw" false 0 ⟨12, 13⟩ =
      ⟨1, "", ⟨1, 0, 0⟩, 0,
        [⟨"f", 100, 100, 0, 1, 0, [⟨"b1", .bbox, "boat", 10, 10, 18, 17⟩]⟩], []⟩ ∧
    handleSelectDragResize projC6 "nw" false 0 ⟨12, 13⟩ ≠
      ⟨1, "", ⟨1, 0, 0⟩, 0,
        [⟨"f", 100, 100, 0, 1, 0, [⟨"b1", .bbox, "boat", 12, 13, 18, 17⟩]⟩], []⟩ := by
  refine ⟨?_, ?_, ?_, ?_, ?_⟩ <;>
    norm_num [handleSelectDragResize, currentFrameOf, projC6, mkTransformer,
      screenToImage, resizeAnnProj, resizeAnnList, setFrameAnns, List.findIdx?,
      MIN_BBOX_SIDE, sup_eq_max, max_def, List.enum,
      (show ("n" : String) ≠ "se" by decide), (show ("n" : String) ≠ "nw" by decide),
      (show ("ne" : String) ≠ "se" by decide), (show ("ne" : String) ≠ "nw" by decide),
      (show ("nw" : String) ≠ "se" by decide)]

/-! ### C7 — state invariant -/

/-- A structurally valid file whose `currentIndex` (5 ≥ 1 frame) and zoom
(100 > 32) are out of range: the load validation accepts it anyway. -/
def badProject : Project :=
  ⟨1, "", ⟨100, 0, 0⟩, 5, [⟨"f", 100, 100, 0, 1, 0, []⟩], []⟩

/-- C7 counterexample: starting from the default project, the single
operation "load this structurally valid project file" reaches a state with a
non-empty frame list in which `currentIndex = 5 ≥ 1 = frames.length` and
`zoom = 100 ∉ [0.2, 32]` — loading validates neither field, so the claimed
invariant does not hold in every reachable state. -/
theorem C7_counterexample :
    Inv defaultProject ∧
    applyOps defaultProject [Op.loadProject badProject] = badProject ∧
    ¬ Inv badProject := by
  refine ⟨?_, ?_, ?_⟩
  · constructor
    · intro h
      exact absurd rfl h
    · norm_num [defaultProject, ZOOM_MIN, ZOOM_MAX]
  · norm_num [applyOps, applyOp, defaultProject, badProject]
  · intro h
    have h2 := h.2.2
    norm_num [badProject, ZOOM_MAX] at h2

theorem clampZoom_bounds (z : ℚ) : ZOOM_MIN ≤ clampZoom z ∧ clampZoom z ≤ ZOOM_MAX := by
  unfold clampZoom
  constructor
  · exact le_max_left _ _
  · exact max_le (by norm_num [ZOOM_MIN, ZOOM_MAX]) (min_le_left _ _)

/-- Every single operation preserves the invariant, given its side
condition. -/
theorem applyOp_inv (p : Project) (op : Op) (hp : Inv p) (hok : OpOK op) :
    Inv (applyOp p op) := by
  obtain ⟨h1, h2, h3⟩ := hp
  cases op with
  | goToFrame i =>
    simp only [applyOp]
    split_ifs with h
    · refine ⟨fun _ => ?_, h2, h3⟩
      dsimp only
      omega
    · exact ⟨h1, h2, h3⟩
  | wheelZoom zoomOut =>
    simp only [applyOp]
    cases hf : currentFrameOf p with
    | none => exact ⟨h1, h2, h3⟩
    | some f =>
      dsimp only
      refine ⟨h1, ?_, ?_⟩
      · rw [handleWheel_eq]
        exact (clampZoom_bounds _).1
      · rw [handleWheel_eq]
        exact (clampZoom_bounds _).2
  | keyZoomIn =>
    simp only [applyOp]
    cases hf : currentFrameOf p with
    | none => exact ⟨h1, h2, h3⟩
    | some f =>
      dsimp only
      refine ⟨h1, ?_, ?_⟩
      · refine le_min (by norm_num [ZOOM_MIN, ZOOM_MAX]) ?_
        rw [ZOOM_MIN] at h2 ⊢
        linarith
      · exact min_le_left _ _
  | keyZoomOut =>
    simp only [applyOp]
    cases hf : currentFrameOf p with
    | none => exact ⟨h1, h2, h3⟩
    | some f =>
      dsimp only
      refine ⟨h1, le_max_left _ _, ?_⟩
      refine max_le (by norm_num [ZOOM_MIN, ZOOM_MAX]) ?_
      rw [ZOOM_MAX] at h3 ⊢
      rw [div_le_iff (by norm_num : (0:ℚ) < 12/10)]
      linarith
  | sliderZoom z => exact ⟨h1, hok.1, hok.2⟩
  | resetView =>
    simp only [applyOp]
    exact ⟨h1, by norm_num [ZOOM_MIN], by norm_num [ZOOM_MAX]⟩
  | loadProject q =>
    simp only [applyOp]
    split_ifs with h
    · exact hok
    · exact ⟨h1, h2, h3⟩

/-- C7 (amended): the invariant `0 ≤ currentIndex < frames.length` (frames
non-empty) and `zoom ∈ [0.2, 32]` is preserved by every sequence of frame
navigations, wheel and keyboard zooms, viewport resets, slider zooms (the DOM
clamps the log-scale slider into `[ln 0.2, ln 32]`, so the written zoom lies
in `[0.2, 32]`), and loads of project files that themselves satisfy the
invariant; unrestricted project load can break it (see the counterexample),
so the load operation carries that side condition. -/
theorem C7_invariant (p : Project) (ops : List Op) (hp : Inv p)
    (hok : ∀ op ∈ ops, OpOK op) : Inv (applyOps p ops) := by
  induction ops generalizing p with
  | nil => exact hp
  | cons op rest ih =>
    have h1 : Inv (applyOp p op) := applyOp_inv p op hp (hok op (by simp))
    exact ih (applyOp p op) h1 (fun o ho => hok o (by simp [ho]))

theorem C7_invariant_witness :
    Inv defaultProject ∧
    (∀ op ∈ ([Op.resetView, Op.goToFrame 0, Op.keyZoomIn] : List Op), OpOK op) ∧
    Inv (applyOps defaultProject [Op.resetView, Op.goToFrame 0, Op.keyZoomIn]) :=
  ⟨⟨fun h => absurd rfl h, by norm_num [defaultProject, ZOOM_MIN, ZOOM_MAX]⟩,
    by simp [OpOK],
    C7_invariant defaultProject [Op.resetView, Op.goToFrame 0, Op.keyZoomIn]
      ⟨fun h => absurd rfl h, by norm_num [defaultProject, ZOOM_MIN, ZOOM_MAX]⟩
      (by simp [OpOK])⟩

/-! ### C8 — project-file validation -/

/-- A project file with `version: 0` (non-null but falsy) and an empty
`frames` array. -/
def versionZeroFile : JValue :=
  .obj [("version", .num 0), ("frames", .arr [])]

/-- C8 counterexample: `{"version": 0, "frames": []}` has a non-null
`version` and a `frames` list, so the claim says it is accepted — but the
source's truthiness test rejects `version: 0`, retaining the current
project. -/
theorem C8_counterexample :
    claimAccepts versionZeroFile = true ∧
    handleLoadProjectJ (JValue.obj []) (some versionZeroFile) = (JValue.obj [], false) := by
  constructor
  · rfl
  · rfl

/-- Truthiness and a null check differ exactly on falsy non-null values. -/
theorem truthy_and_isArr (v : JValue) : (v.truthy && v.isArr) = v.isArr := by
  cases v <;> simp [JValue.truthy, JValue.isArr]

/-- C8 (amended): a candidate project file is accepted iff its `version`
field is *truthy* (non-null and also not `false`, `0`, or the empty string)
and its `frames` field is present and is a list; a missing parse (malformed
JSON) or a failed validation leaves the current project untouched. -/
theorem C8_load_validation (cur j : JValue) :
    ((handleLoadProjectJ cur (some j)).2 = amendedAccepts j) ∧
    handleLoadProjectJ cur none = (cur, false) ∧
    ((handleLoadProjectJ cur (some j)).2 = false →
      (handleLoadProjectJ cur (some j)).1 = cur) := by
  have hval : validProjectJ j = amendedAccepts j := by
    unfold validProjectJ amendedAccepts
    rw [Bool.and_assoc, truthy_and_isArr]
    cases h : j.getF "version" <;> simp [JValue.truthy]
  refine ⟨?_, rfl, ?_⟩
  · simp only [handleLoadProjectJ]
    split_ifs with h
    · rw [← hval, h]
    · rw [← hval]
      simp [h]
  · intro hrej
    simp only [handleLoadProjectJ] at hrej ⊢
    split_ifs with h
    · rw [if_pos h] at hrej
      simp at hrej
    · rfl

theorem C8_load_validation_witness :
    ((handleLoadProjectJ (JValue.obj []) (some versionZeroFile)).2 = false) ∧
    handleLoadProjectJ (JValue.obj []) none = (JValue.obj [], false) ∧
    (handleLoadProjectJ (JValue.obj []) (some versionZeroFile)).1 = JValue.obj [] :=
  ⟨((C8_load_validation (JValue.obj []) versionZeroFile).1).trans (by rfl),
    (C8_load_validation (JValue.obj []) versionZeroFile).2.1,
    (C8_load_validation (JValue.obj []) versionZeroFile).2.2 (by rfl)⟩

/-! ### C9 — debounced saves -/

/-- While every following mutation arrives within 400 ms of its predecessor,
the pending timer is always cancelled and rescheduled, so the only fire is
400 ms after the final mutation. -/
theorem runSaves_coalesce (t : ℚ) (rest : List ℚ)
    (h : List.Chain' (fun a b => b < a + SAVE_DEBOUNCE_MS) (t :: rest)) :
    runSaves (some (t + SAVE_DEBOUNCE_MS)) rest = [rest.getLastD t + SAVE_DEBOUNCE_MS] := by
  induction rest generalizing t with
  | nil => rfl
  | cons u rest2 ih =>
    have hu : u < t + SAVE_DEBOUNCE_MS := (List.chain'_cons.mp h).1
    simp only [runSaves, if_neg (not_lt.mpr (le_of_lt hu)), List.getLastD_cons]
    exact ih u (List.chain'_cons.mp h).2

/-- Appending one mutation more than 400 ms after the last lets the pending
timer fire before being rescheduled: exactly two saves. -/
theorem runSaves_append_late (t u : ℚ) (rest : List ℚ)
    (h : List.Chain' (fun a b => b < a + SAVE_DEBOUNCE_MS) (t :: rest))
    (hu : rest.getLastD t + SAVE_DEBOUNCE_MS < u) :
    runSaves (some (t + SAVE_DEBOUNCE_MS)) (rest ++ [u]) =
      [rest.getLastD t + SAVE_DEBOUNCE_MS, u + SAVE_DEBOUNCE_MS] := by
  induction rest generalizing t with
  | nil =>
    simp only [List.getLastD_nil] at hu
    simp only [List.nil_append, runSaves, if_pos hu]
    rfl
  | cons v rest2 ih =>
    have hv : v < t + SAVE_DEBOUNCE_MS := (List.chain'_cons.mp h).1
    simp only [List.getLastD_cons] at hu ⊢
    simp only [List.cons_append, runSaves, if_neg (not_lt.mpr (le_of_lt hv))]
    exact ih v (List.chain'_cons.mp h).2 hu

/-- C9: every project mutation cancels any pending save timer and schedules a
new one 400 ms out (the machine holds at most one pending timer by
construction), so a non-empty run of mutations in which each successor
arrives within 400 ms of its predecessor persists exactly one save, and one
further mutation arriving after that timer has fired persists a second. -/
theorem C9_debounce (t u : ℚ) (rest : List ℚ)
    (h : List.Chain' (fun a b => b < a + SAVE_DEBOUNCE_MS) (t :: rest))
    (hu : rest.getLastD t + SAVE_DEBOUNCE_MS < u) :
    (savesOf (t :: rest)).length = 1 ∧
    (savesOf ((t :: rest) ++ [u])).length = 2 := by
  constructor
  · show (runSaves none (t :: rest)).length = 1
    simp only [runSaves]
    rw [runSaves_coalesce t rest h]
    rfl
  · show (runSaves none ((t :: rest) ++ [u])).length = 2
    simp only [List.cons_append, runSaves]
    rw [List.append_eq, runSaves_append_late t u rest h hu]
    rfl

theorem C9_debounce_witness :
    List.Chain' (fun a b => b < a + SAVE_DEBOUNCE_MS) ([0, 100, 200, 300, 350] : List ℚ) ∧
    ([100, 200, 300, 350] : List ℚ).getLastD 0 + SAVE_DEBOUNCE_MS < 800 ∧
    (savesOf ([0, 100, 200, 300, 350] : List ℚ)).length = 1 ∧
    (savesOf (([0, 100, 200, 300, 350] : List ℚ) ++ [800])).length = 2 :=
  ⟨by simp [List.chain'_cons]; norm_num [SAVE_DEBOUNCE_MS],
    by norm_num [SAVE_DEBOUNCE_MS],
    (C9_debounce 0 800 [100, 200, 300, 350]
      (by simp [List.chain'_cons]; norm_num [SAVE_DEBOUNCE_MS])
      (by norm_num [SAVE_DEBOUNCE_MS])).1,
    (C9_debounce 0 800 [100, 200, 300, 350]
      (by simp [List.chain'_cons]; norm_num [SAVE_DEBOUNCE_MS])
      (by norm_num [SAVE_DEBOUNCE_MS])).2⟩

/-! ### C10 — imports replace frames only -/

/-- C10: importing a single image or a non-empty folder of images replaces
the frames list with freshly built frames (rotation 0, no annotations) and
resets `currentIndex` to 0, while the global buoy list, viewport, schema
version and creation timestamp are all retained — global annotations survive
loading a new image set. -/
theorem C10_import_preserves (proj : Project) (fd : FrameData)
    (imgs : List FrameData) (h : imgs ≠ []) :
    (importSingleImage proj fd).globalBuoys = proj.globalBuoys ∧
    (importSingleImage proj fd).viewport = proj.viewport ∧
    (importSingleImage proj fd).version = proj.version ∧
    (importSingleImage proj fd).createdAt = proj.createdAt ∧
    (importSingleImage proj fd).currentIndex = 0 ∧
    (importSingleImage proj fd).frames = [mkImportedFrame fd] ∧
    (importFolder proj imgs).globalBuoys = proj.globalBuoys ∧
    (importFolder proj imgs).viewport = proj.viewport ∧
    (importFolder proj imgs).version = proj.version ∧
    (importFolder proj imgs).createdAt = proj.createdAt ∧
    (importFolder proj imgs).currentIndex = 0 ∧
    (importFolder proj imgs).frames = imgs.map mkImportedFrame := by
  unfold importSingleImage importFolder
  rw [if_neg h]
  exact ⟨rfl, rfl, rfl, rfl, rfl, rfl, rfl, rfl, rfl, rfl, rfl, rfl⟩

theorem C10_import_preserves_witness :
    (([⟨"a.png", 10, 10⟩] : List FrameData) ≠ []) ∧
    (importSingleImage
        ⟨1, "t0", ⟨2, 3, 4⟩, 0, [], [⟨"g1", .point, "buoy", 1, 2, 0, 0⟩]⟩
        ⟨"b.png", 20, 30⟩).globalBuoys
      = [⟨"g1", .point, "buoy", 1, 2, 0, 0⟩] ∧
    (importFolder
        ⟨1, "t0", ⟨2, 3, 4⟩, 0, [], [⟨"g1", .point, "buoy", 1, 2, 0, 0⟩]⟩
        [⟨"a.png", 10, 10⟩]).globalBuoys
      = [⟨"g1", .point, "buoy", 1, 2, 0, 0⟩] ∧
    (importFolder
        ⟨1, "t0", ⟨2, 3, 4⟩, 0, [], [⟨"g1", .point, "buoy", 1, 2, 0, 0⟩]⟩
        [⟨"a.png", 10, 10⟩]).currentIndex = 0 :=
  ⟨by simp,
    (C10_import_preserves ⟨1, "t0", ⟨2, 3, 4⟩, 0, [], [⟨"g1", .point, "buoy", 1, 2, 0, 0⟩]⟩
      ⟨"b.png", 20, 30⟩ [⟨"a.png", 10, 10⟩] (by simp)).1,
    (C10_import_preserves ⟨1, "t0", ⟨2, 3, 4⟩, 0, [], [⟨"g1", .point, "buoy", 1, 2, 0, 0⟩]⟩
      ⟨"b.png", 20, 30⟩ [⟨"a.png", 10, 10⟩] (by simp)).2.2.2.2.2.2.1,
    (C10_import_preserves ⟨1, "t0", ⟨2, 3, 4⟩, 0, [], [⟨"g1", .point, "buoy", 1, 2, 0, 0⟩]⟩
      ⟨"b.png", 20, 30⟩ [⟨"a.png", 10, 10⟩] (by simp)).2.2.2.2.2.2.2.2.2.2.1⟩

end RadarLabeler
